import Mathlib

/-!
# Verification of the aicular capture/session core

Shallow embedding of the two core modules of the repository:

* `src/lib/media-service.ts` — the capture pairing pipeline (`MediaService`):
  an audio recorder whose `ondataavailable` handler pairs each audio chunk
  with the most recently captured video frame, and a periodic video timer
  writing into the single `currentVideoFrame` slot.
* `src/lib/gemini-live-service.ts` — the session lifecycle manager
  (`GeminiLiveService`): connection state, reconnection with linear backoff,
  health/token timers, resumption handles, go-away handling, the `Busy`
  (`isProcessing`) send gate, and the token refresh machinery.

Time-driven and network-driven behaviour is modelled by explicit events and
explicit outcome parameters (e.g. whether a remote send succeeds); timers are
modelled by counting the pending callbacks each `setTimeout`/`setInterval`
creates and which of them `cleanupSession` clears.
-/

namespace Aicular

/-! ## Data model (media-service.ts) -/

/-- `AudioChunk` from media-service.ts: base64 data, mime type, timestamp. -/
structure AudioChunk where
  data : String
  mimeType : String
  timestamp : Nat
deriving Repr, DecidableEq

/-- `VideoFrame` from media-service.ts. -/
structure VideoFrame where
  data : String
  timestamp : Nat
  width : Nat
  height : Nat
deriving Repr, DecidableEq

/-- `MediaInput` from media-service.ts.  Note that in the source the `video`
field is *not* optional: `interface MediaInput { audio: AudioChunk; video:
VideoFrame; timestamp: number }`. -/
structure MediaInput where
  audio : AudioChunk
  video : VideoFrame
  timestamp : Nat
deriving Repr, DecidableEq

/-- The fields of `MediaService` that the pairing pipeline reads and writes:
`isCapturing`, the `onMediaInput` callback (modelled by whether it is set),
the video element/canvas/context references (modelled by `elementsReady`),
and the single-slot `currentVideoFrame` cell. -/
structure MediaServiceState where
  isCapturing : Bool
  hasCallback : Bool
  elementsReady : Bool
  currentVideoFrame : Option VideoFrame
deriving Repr, DecidableEq

namespace MediaService

/-- `MediaService.captureVideoFrame`: returns without effect when the video
element, canvas or context is missing or capture is stopped; otherwise
overwrites the `currentVideoFrame` slot with the freshly drawn frame. -/
def captureVideoFrame (st : MediaServiceState) (frame : VideoFrame) :
    MediaServiceState :=
  if st.elementsReady && st.isCapturing then
    { st with currentVideoFrame := some frame }
  else
    st

/-- The `mediaRecorder.ondataavailable` handler set up in
`MediaService.startAudioRecording`: when the blob is non-empty AND a video
frame has been captured AND the callback is set, it builds an `AudioChunk`
(with the fixed opus mime type), pairs it with `currentVideoFrame` and hands
the resulting `MediaInput` to the callback; in every other case nothing is
emitted. -/
def ondataavailable (st : MediaServiceState) (dataSize : Nat)
    (audioBase64 : String) (now : Nat) : Option MediaInput :=
  if 0 < dataSize then
    match st.currentVideoFrame with
    | some vf =>
        if st.hasCallback then
          some { audio := { data := audioBase64,
                            mimeType := "audio/webm;codecs=opus",
                            timestamp := now },
                 video := vf,
                 timestamp := now }
        else none
    | none => none
  else none

/-- The two event sources driving the pairing pipeline: the video frame timer
(`setInterval` in `startCapture`) and the audio recorder's data events. -/
inductive MediaEvent where
  | videoTick (frame : VideoFrame)
  | audioData (dataSize : Nat) (audioBase64 : String) (now : Nat)
deriving Repr, DecidableEq

/-- One dispatch of the media event loop. -/
def mediaStep (st : MediaServiceState) :
    MediaEvent → MediaServiceState × Option MediaInput
  | .videoTick f => (captureVideoFrame st f, none)
  | .audioData sz b now => (st, ondataavailable st sz b now)

/-- Run the pairing pipeline over a sequence of events, collecting every
`MediaInput` handed to the `onMediaInput` callback, in order. -/
def mediaRun (st : MediaServiceState) :
    List MediaEvent → MediaServiceState × List MediaInput
  | [] => (st, [])
  | e :: rest =>
      let r := mediaStep st e
      let r2 := mediaRun r.1 rest
      (r2.1, r.2.toList ++ r2.2)

/-- Specification-side recomputation of "the most recently captured video
frame": the last `videoTick` of the trace (falling back to the frame already
in the slot).  Used to compare with what `mediaRun` actually pairs. -/
def lastCapturedFrame (acc : Option VideoFrame) :
    List MediaEvent → Option VideoFrame
  | [] => acc
  | .videoTick f :: rest => lastCapturedFrame (some f) rest
  | .audioData _ _ _ :: rest => lastCapturedFrame acc rest

end MediaService

/-! ## Data model (gemini-live-service.ts) -/

/-- Response modalities from `@google/genai` used by the service. -/
inductive Modality where
  | audio
  | text
deriving Repr, DecidableEq

/-- `GeminiSession` from gemini-live-service.ts (the raw `session : any`
wire handle is modelled by the outcome parameters of the send operations). -/
structure GeminiSession where
  sessionHandle : Option String
  isConnected : Bool
  isProcessing : Bool
deriving Repr, DecidableEq

/-- `sessionResumption` part of `SessionConfig`. -/
structure SessionResumptionConfig where
  handle : Option String
deriving Repr, DecidableEq

/-- `SessionConfig` from gemini-live-service.ts, as built in
`connectSession` (the `contextWindowCompression: { slidingWindow: {} }`
field carries no data and is modelled by a flag). -/
structure SessionConfig where
  responseModalities : List Modality
  systemInstruction : Option String
  contextWindowCompression : Bool
  sessionResumption : SessionResumptionConfig
deriving Repr, DecidableEq

/-- `message.sessionResumptionUpdate` as inspected by `handleMessage`:
the `resumable` flag and the (possibly absent) `newHandle`.  JavaScript
truthiness of `newHandle` means a present-but-empty string is treated as
absent. -/
structure SessionResumptionUpdate where
  resumable : Bool
  newHandle : Option String
deriving Repr, DecidableEq

/-- `message.goAway`, carrying the number of seconds left (the source applies
`parseInt` to it). -/
structure GoAwayMsg where
  timeLeft : Int
deriving Repr, DecidableEq

/-- `message.serverContent` as far as `handleMessage` inspects it. -/
structure ServerContent where
  generationComplete : Bool
deriving Repr, DecidableEq

/-- An inbound Live API message, restricted to the three optional fields
`handleMessage` structurally inspects. -/
structure LiveMessage where
  sessionResumptionUpdate : Option SessionResumptionUpdate
  goAway : Option GoAwayMsg
  serverContent : Option ServerContent
deriving Repr, DecidableEq

/-- The mutable fields of `GeminiLiveService`.  The two timer *fields*
(`healthCheckInterval`, `tokenRefreshInterval`) are modelled by booleans
(handle stored or null); the anonymous `setTimeout` callbacks created by
`reconnectSession`'s backoff retry and by `handleGoAway` are never stored in
any field of the source class, so they are modelled by counters of pending
callbacks (`pendingBackoffTimers`, `pendingGoAwayTimers`). -/
structure GeminiServiceState where
  currentSession : Option GeminiSession
  sessionHandle : Option String
  reconnectAttempts : Nat
  maxReconnectAttempts : Nat
  reconnectDelay : Nat
  healthCheckInterval : Bool
  tokenRefreshInterval : Bool
  pendingBackoffTimers : Nat
  pendingGoAwayTimers : Nat
  lastActivityTime : Nat
  currentToken : Option String
  tokenExpiresAt : Option Nat
  isRefreshingToken : Bool
deriving Repr, DecidableEq

namespace GeminiLiveService

/-- `isSessionActive` from gemini-live-service.ts:
`currentSession !== null && currentSession.isConnected`. -/
def isSessionActive (st : GeminiServiceState) : Bool :=
  match st.currentSession with
  | some s => s.isConnected
  | none => false

/-- `cleanupSession` from gemini-live-service.ts: clears the health-check
interval and the token-refresh timeout (the only two timer handles the class
stores), then nulls the session, resets the attempt counter, drops the token
and its expiry, and clears the refresh-in-progress flag.  The pending backoff
and go-away `setTimeout` callbacks have no corresponding field and are not
touched. -/
def cleanupSession (st : GeminiServiceState) : GeminiServiceState :=
  { st with
    healthCheckInterval := false,
    tokenRefreshInterval := false,
    currentSession := none,
    reconnectAttempts := 0,
    currentToken := none,
    tokenExpiresAt := none,
    isRefreshingToken := false }

/-- Result of one entry into `reconnectSession`. -/
inductive ReconnectStepResult where
  | fatal
  | connected
  | retryScheduled (delayMs : Nat)
deriving Repr, DecidableEq

/-- One entry into `reconnectSession`, with the outcome of the inner
`connectSession` call supplied as `connectSucceeds`.  If the attempt counter
has reached the maximum, it logs the fatal error and runs `cleanupSession`.
Otherwise it attempts to connect: on success the counter resets to zero and a
fresh connected session is installed; on failure the counter is incremented
and `setTimeout(() => reconnectSession(), reconnectDelay * reconnectAttempts)`
schedules an (untracked) backoff retry. -/
def reconnectSessionStep (st : GeminiServiceState) (connectSucceeds : Bool) :
    GeminiServiceState × ReconnectStepResult :=
  if st.maxReconnectAttempts ≤ st.reconnectAttempts then
    (cleanupSession st, .fatal)
  else if connectSucceeds then
    ({ st with
        reconnectAttempts := 0,
        currentSession := some { sessionHandle := st.sessionHandle,
                                 isConnected := true,
                                 isProcessing := false } },
     .connected)
  else
    ({ st with
        reconnectAttempts := st.reconnectAttempts + 1,
        pendingBackoffTimers := st.pendingBackoffTimers + 1 },
     .retryScheduled (st.reconnectDelay * (st.reconnectAttempts + 1)))

/-- Observable trace of a reconnection episode: how many `connectSession`
attempts were issued, how many fatal "max reconnection attempts reached"
notifications were emitted, whether the episode ended in the cleaned-up
(closed) state, and the largest value the attempt counter took. -/
structure ReconnectTrace where
  connects : Nat
  fatals : Nat
  closed : Bool
  maxCounterSeen : Nat
deriving Repr, DecidableEq

/-- Run the `reconnectSession` retry loop: each element of `outcomes` is the
result of one `connectSession` attempt, consumed in order; the loop ends on a
successful connect, on exhaustion (fatal + cleanup), or when the supply of
outcomes ends (a retry still pending). -/
def reconnectRun (st : GeminiServiceState) :
    List Bool → GeminiServiceState × ReconnectTrace
  | [] =>
      if st.maxReconnectAttempts ≤ st.reconnectAttempts then
        (cleanupSession st,
         { connects := 0, fatals := 1, closed := true,
           maxCounterSeen := st.reconnectAttempts })
      else
        (st, { connects := 0, fatals := 0, closed := false,
               maxCounterSeen := st.reconnectAttempts })
  | ok :: rest =>
      if st.maxReconnectAttempts ≤ st.reconnectAttempts then
        (cleanupSession st,
         { connects := 0, fatals := 1, closed := true,
           maxCounterSeen := st.reconnectAttempts })
      else if ok then
        ((reconnectSessionStep st true).1,
         { connects := 1, fatals := 0, closed := false,
           maxCounterSeen := st.reconnectAttempts })
      else
        let st' := (reconnectSessionStep st false).1
        let r := reconnectRun st' rest
        (r.1,
         { connects := r.2.connects + 1, fatals := r.2.fatals,
           closed := r.2.closed,
           maxCounterSeen := max st.reconnectAttempts r.2.maxCounterSeen })

/-- `handleGoAway` from gemini-live-service.ts: schedules an anonymous
`setTimeout` with delay `(parseInt(timeLeft) - 10) * 1000` milliseconds;
the handle is not stored anywhere.  Returns the new state together with the
scheduled delay. -/
def handleGoAway (st : GeminiServiceState) (goAway : GoAwayMsg) :
    GeminiServiceState × Int :=
  ({ st with pendingGoAwayTimers := st.pendingGoAwayTimers + 1 },
   (goAway.timeLeft - 10) * 1000)

/-- The body of the `setTimeout` callback scheduled by `handleGoAway`:
`reconnectSession` is invoked iff a session exists and is still connected.
Returns whether the reconnect is performed. -/
def goAwayTimerFires (st : GeminiServiceState) : Bool :=
  match st.currentSession with
  | some s => s.isConnected
  | none => false

/-- `handleMessage` from gemini-live-service.ts: stores a new resumption
handle when the update is marked resumable and `newHandle` is truthy (a
non-empty string); on `goAway` delegates to `handleGoAway`; on
`serverContent.generationComplete` clears the session's `isProcessing` flag
(the source dereferences `currentSession!`, which presupposes a session). -/
def handleMessage (st : GeminiServiceState) (msg : LiveMessage) :
    GeminiServiceState :=
  let st1 :=
    match msg.sessionResumptionUpdate with
    | some u =>
        match u.newHandle with
        | some h =>
            if u.resumable && h ≠ "" then { st with sessionHandle := some h }
            else st
        | none => st
    | none => st
  let st2 :=
    match msg.goAway with
    | some g => (handleGoAway st1 g).1
    | none => st1
  match msg.serverContent with
  | some sc =>
      if sc.generationComplete then
        { st2 with currentSession :=
            st2.currentSession.map (fun s => { s with isProcessing := false }) }
      else st2
  | none => st2

/-- The fixed system instruction string built in `connectSession` (abridged
to its first sentence here; no property depends on the wording, only on the
field being populated with this constant). -/
def systemInstructionText : String :=
  "You are an AI assistant that serves as eyes for the blind."

/-- The `SessionConfig` value built by `connectSession` (lines 105–110):
audio-only response modality, the fixed system instruction, sliding-window
context compression, and `sessionResumption.handle` set to the stored
`sessionHandle`. -/
def connectConfig (st : GeminiServiceState) : SessionConfig :=
  { responseModalities := [Modality.audio],
    systemInstruction := some systemInstructionText,
    contextWindowCompression := true,
    sessionResumption := { handle := st.sessionHandle } }

/-- Outcome of one call to a send operation. -/
inductive SendResult where
  | noSession
  | droppedBusy
  | sent
  | sendFailed
deriving Repr, DecidableEq

/-- The `input` object assembled by `sendMultimodalInput` for
`sendRealtimeInput`: an optional `audio` part (data + mime type from the
chunk) and an optional `image` part (frame data, always tagged
`image/jpeg`). -/
structure RealtimeInput where
  audio : Option (String × String)
  image : Option (String × String)
deriving Repr, DecidableEq

/-- Result record of a send operation: the post state, the returned/thrown
outcome, and whether `session.sendRealtimeInput`/`sendClientContent` (the
remote endpoint) was invoked. -/
structure SendOutcome where
  state : GeminiServiceState
  result : SendResult
  remoteContacted : Bool
  payload : Option RealtimeInput
deriving Repr, DecidableEq

/-- `sendMultimodalInput` from gemini-live-service.ts.  Throws when there is
no connected session; returns early (dropping the unit, without contacting
the remote endpoint) when `isProcessing` is set and the input carries audio;
otherwise sets `isProcessing` (audio-bearing inputs only), stamps
`lastActivityTime`, and performs the remote send — on failure the
`isProcessing` flag is reset (audio-bearing inputs only) and the error is
rethrown. -/
def sendMultimodalInput (st : GeminiServiceState) (audioChunk : Option AudioChunk)
    (videoFrame : Option VideoFrame) (now : Nat) (remoteSendSucceeds : Bool) :
    SendOutcome :=
  match st.currentSession with
  | none => { state := st, result := .noSession, remoteContacted := false, payload := none }
  | some sess =>
      if !sess.isConnected then
        { state := st, result := .noSession, remoteContacted := false, payload := none }
      else if sess.isProcessing && audioChunk.isSome then
        { state := st, result := .droppedBusy, remoteContacted := false, payload := none }
      else
        let sess1 :=
          if audioChunk.isSome then { sess with isProcessing := true } else sess
        let st1 := { st with currentSession := some sess1, lastActivityTime := now }
        let input : RealtimeInput :=
          { audio := audioChunk.map (fun a => (a.data, a.mimeType)),
            image := videoFrame.map (fun v => (v.data, "image/jpeg")) }
        if remoteSendSucceeds then
          { state := st1, result := .sent, remoteContacted := true,
            payload := some input }
        else
          let sess2 :=
            if audioChunk.isSome then { sess1 with isProcessing := false }
            else sess1
          { state := { st1 with currentSession := some sess2 },
            result := .sendFailed, remoteContacted := true,
            payload := some input }

/-- `sendAudioChunk` from gemini-live-service.ts: throws without a connected
session; silently returns (without sending) while `isProcessing`; otherwise
sets `isProcessing`, stamps activity and sends, resetting the flag and
rethrowing on failure. -/
def sendAudioChunk (st : GeminiServiceState) (chunk : AudioChunk) (now : Nat)
    (remoteSendSucceeds : Bool) : SendOutcome :=
  match st.currentSession with
  | none => { state := st, result := .noSession, remoteContacted := false, payload := none }
  | some sess =>
      if !sess.isConnected then
        { state := st, result := .noSession, remoteContacted := false, payload := none }
      else if sess.isProcessing then
        { state := st, result := .droppedBusy, remoteContacted := false, payload := none }
      else
        let st1 := { st with
          currentSession := some { sess with isProcessing := true },
          lastActivityTime := now }
        let input : RealtimeInput :=
          { audio := some (chunk.data, chunk.mimeType), image := none }
        if remoteSendSucceeds then
          { state := st1, result := .sent, remoteContacted := true,
            payload := some input }
        else
          { state := { st1 with
              currentSession := some { sess with isProcessing := false } },
            result := .sendFailed, remoteContacted := true,
            payload := some input }

/-- `sendVideoFrame` from gemini-live-service.ts: throws without a connected
session; otherwise stamps activity and sends (no `isProcessing` gate). -/
def sendVideoFrame (st : GeminiServiceState) (frame : VideoFrame) (now : Nat)
    (remoteSendSucceeds : Bool) : SendOutcome :=
  match st.currentSession with
  | none => { state := st, result := .noSession, remoteContacted := false, payload := none }
  | some sess =>
      if !sess.isConnected then
        { state := st, result := .noSession, remoteContacted := false, payload := none }
      else
        let st1 := { st with lastActivityTime := now }
        let input : RealtimeInput :=
          { audio := none, image := some (frame.data, "image/jpeg") }
        if remoteSendSucceeds then
          { state := st1, result := .sent, remoteContacted := true,
            payload := some input }
        else
          { state := st1, result := .sendFailed, remoteContacted := true,
            payload := some input }

/-- `sendTextMessage` from gemini-live-service.ts: throws without a connected
session; otherwise stamps activity and sends via `sendClientContent`. -/
def sendTextMessage (st : GeminiServiceState) (_text : String) (now : Nat)
    (remoteSendSucceeds : Bool) : SendOutcome :=
  match st.currentSession with
  | none => { state := st, result := .noSession, remoteContacted := false, payload := none }
  | some sess =>
      if !sess.isConnected then
        { state := st, result := .noSession, remoteContacted := false, payload := none }
      else
        let st1 := { st with lastActivityTime := now }
        if remoteSendSucceeds then
          { state := st1, result := .sent, remoteContacted := true,
            payload := none }
        else
          { state := st1, result := .sendFailed, remoteContacted := true,
            payload := none }

end GeminiLiveService

/-! ## Token refresh concurrency (gemini-live-service.ts)

`refreshToken` and `ensureValidToken` are `async` methods running on the
single-threaded event loop: code between two `await` points executes
atomically, and interleaving happens only at the `await`s.  Each method is
therefore embedded as a small program whose program counter advances one
atomic segment per step, over a shared token state.  The issuance round trip
(`requestNewToken`'s `fetch`) is the suspension point; the model counts how
many issuance requests have been started and how many are currently in
flight. -/

/-- Shared token-related state: the `isRefreshingToken` flag, an abstraction
of `isTokenValid()` (token present and outside the 2-minute buffer), and
instrumentation counting the issuance requests the `fetch` in
`requestNewToken` starts. -/
structure TokenEnvState where
  isRefreshingToken : Bool
  tokenValid : Bool
  requestsStarted : Nat
  requestsInFlight : Nat
deriving Repr, DecidableEq

/-- Program counter of one caller running `refreshToken` (`rt…`) or
`ensureValidToken` (`ev…`).

* `rtStart`: about to run the guard `if (isRefreshingToken) return false;
  isRefreshingToken = true;` followed by the start of the `requestNewToken`
  fetch — all before the first `await`, hence one atomic segment.
* `rtAwait`: suspended on the issuance round trip; resuming stores the new
  token, marks it valid, and the `finally` block clears the flag.
* `evStart`: about to run `ensureValidToken`'s synchronous prefix: if
  `isRefreshingToken` it moves to the 1-second sleep; else if the token is
  valid it returns; else it starts its own `requestNewToken` fetch.
* `evWait`: suspended on the 1-second sleep; resuming just re-reads
  `isTokenValid()` and returns.
* `evAwait`: suspended on its own issuance round trip; resuming stores the
  token and returns.
* `rtDone`/`evDone`: returned. -/
inductive TokenProc where
  | rtStart
  | rtAwait
  | rtDone
  | evStart
  | evWait
  | evAwait
  | evDone
deriving Repr, DecidableEq

namespace GeminiLiveService

/-- One atomic segment of a token caller (see `TokenProc`).  Resumption of an
issuance round trip is modelled as successful (the failure path differs only
in `tokenValid`, and clears the flag in `finally` just the same). -/
def tokenStep (s : TokenEnvState) : TokenProc → TokenEnvState × TokenProc
  | .rtStart =>
      if s.isRefreshingToken then (s, .rtDone)
      else
        ({ s with isRefreshingToken := true,
                  requestsStarted := s.requestsStarted + 1,
                  requestsInFlight := s.requestsInFlight + 1 }, .rtAwait)
  | .rtAwait =>
      ({ s with isRefreshingToken := false, tokenValid := true,
                requestsInFlight := s.requestsInFlight - 1 }, .rtDone)
  | .rtDone => (s, .rtDone)
  | .evStart =>
      if s.isRefreshingToken then (s, .evWait)
      else if s.tokenValid then (s, .evDone)
      else
        ({ s with requestsStarted := s.requestsStarted + 1,
                  requestsInFlight := s.requestsInFlight + 1 }, .evAwait)
  | .evWait => (s, .evDone)
  | .evAwait =>
      ({ s with tokenValid := true,
                requestsInFlight := s.requestsInFlight - 1 }, .evDone)
  | .evDone => (s, .evDone)

/-- Dispatch one step of the caller at index `i` (no-op on an out-of-range
index). -/
def tokenStepAt (s : TokenEnvState) (ps : List TokenProc) (i : Nat) :
    TokenEnvState × List TokenProc :=
  match ps[i]? with
  | none => (s, ps)
  | some p =>
      let r := tokenStep s p
      (r.1, ps.set i r.2)

/-- Run a schedule (a list of caller indices, dispatched in order) over the
shared token state. -/
def runTokenSched (s : TokenEnvState) (ps : List TokenProc) :
    List Nat → TokenEnvState × List TokenProc
  | [] => (s, ps)
  | i :: rest =>
      let r := tokenStepAt s ps i
      runTokenSched r.1 r.2 rest

/-- A `refreshToken` caller's program counter (any phase). -/
def isRefreshProc : TokenProc → Bool
  | .rtStart | .rtAwait | .rtDone => true
  | _ => false

/-- Number of callers currently suspended on an issuance round trip. -/
def awaitingCount (ps : List TokenProc) : Nat :=
  ps.countP (fun p => p == TokenProc.rtAwait || p == TokenProc.evAwait)

/-- Invariant of a population of concurrent `refreshToken` callers: every
caller is a `refreshToken` caller, the number of issuance requests in flight
equals the number of callers suspended on the round trip, the
`isRefreshingToken` flag is set exactly while such a caller exists, and at
most one caller is ever suspended on the round trip. -/
def RefreshInv (s : TokenEnvState) (ps : List TokenProc) : Prop :=
  (∀ p ∈ ps, isRefreshProc p = true) ∧
  s.requestsInFlight = awaitingCount ps ∧
  (s.isRefreshingToken = true ↔ awaitingCount ps = 1) ∧
  awaitingCount ps ≤ 1

end GeminiLiveService

/-! ## Theorems -/

open MediaService GeminiLiveService

/-- **C6.** For every call to a send operation (`sendMultimodalInput`,
`sendAudioChunk`, `sendVideoFrame`, `sendTextMessage`) when there is no
current session or the session is not connected, the call is rejected with a
"No active session" error and the remote endpoint's send operation is never
invoked (state also unchanged). -/
theorem send_rejected_without_active_session
    (st : GeminiServiceState) (h : isSessionActive st = false)
    (oa : Option AudioChunk) (ov : Option VideoFrame) (a : AudioChunk)
    (v : VideoFrame) (txt : String) (now : Nat) (ok : Bool) :
    sendMultimodalInput st oa ov now ok =
      { state := st, result := .noSession, remoteContacted := false,
        payload := none } ∧
    sendAudioChunk st a now ok =
      { state := st, result := .noSession, remoteContacted := false,
        payload := none } ∧
    sendVideoFrame st v now ok =
      { state := st, result := .noSession, remoteContacted := false,
        payload := none } ∧
    sendTextMessage st txt now ok =
      { state := st, result := .noSession, remoteContacted := false,
        payload := none } := by
  cases hsc : st.currentSession with
  | none =>
      simp [sendMultimodalInput, sendAudioChunk, sendVideoFrame,
        sendTextMessage, hsc]
  | some sess =>
      have hconn : sess.isConnected = false := by
        simpa [isSessionActive, hsc] using h
      simp [sendMultimodalInput, sendAudioChunk, sendVideoFrame,
        sendTextMessage, hsc, hconn]

/-- Witness for **C6** at a concrete disconnected state. -/
theorem send_rejected_without_active_session_witness :
    sendMultimodalInput
        { currentSession := none, sessionHandle := none, reconnectAttempts := 0,
          maxReconnectAttempts := 3, reconnectDelay := 1000,
          healthCheckInterval := true, tokenRefreshInterval := false,
          pendingBackoffTimers := 0, pendingGoAwayTimers := 0,
          lastActivityTime := 0, currentToken := none, tokenExpiresAt := none,
          isRefreshingToken := false }
        none none 7 true =
      { state :=
          { currentSession := none, sessionHandle := none, reconnectAttempts := 0,
            maxReconnectAttempts := 3, reconnectDelay := 1000,
            healthCheckInterval := true, tokenRefreshInterval := false,
            pendingBackoffTimers := 0, pendingGoAwayTimers := 0,
            lastActivityTime := 0, currentToken := none, tokenExpiresAt := none,
            isRefreshingToken := false },
        result := .noSession, remoteContacted := false, payload := none } :=
  (send_rejected_without_active_session _ (by decide) none none
    { data := "a", mimeType := "audio/pcm", timestamp := 0 }
    { data := "v", timestamp := 0, width := 640, height := 480 }
    "hello" 7 true).1

/-- **C8.** On receiving a go-away message carrying `timeLeft` seconds (at
least the 10-second safety margin), `handleGoAway` schedules its reconnect
callback to fire exactly `(timeLeft − 10) * 1000` milliseconds later — a
nonnegative delay — and when the timer fires, the reconnect is performed
exactly when a session exists and is still connected. -/
theorem goaway_schedules_margin_reconnect
    (st : GeminiServiceState) (g : GoAwayMsg) (h : 10 ≤ g.timeLeft) :
    (handleGoAway st g).2 = (g.timeLeft - 10) * 1000 ∧
    0 ≤ (handleGoAway st g).2 ∧
    (∀ st' : GeminiServiceState, goAwayTimerFires st' = isSessionActive st') := by
  refine ⟨rfl, ?_, ?_⟩
  · show (0 : Int) ≤ (g.timeLeft - 10) * 1000
    have h10 : (0 : Int) ≤ g.timeLeft - 10 := by omega
    exact mul_nonneg h10 (by norm_num)
  · intro st'
    cases st'.currentSession <;> simp [goAwayTimerFires, isSessionActive, *]

/-- Witness for **C8**: `timeLeft = 30` schedules the reconnect 20000 ms
(20 s) out, matching Scenario E. -/
theorem goaway_schedules_margin_reconnect_witness :
    (handleGoAway
        { currentSession := none, sessionHandle := none, reconnectAttempts := 0,
          maxReconnectAttempts := 3, reconnectDelay := 1000,
          healthCheckInterval := true, tokenRefreshInterval := false,
          pendingBackoffTimers := 0, pendingGoAwayTimers := 0,
          lastActivityTime := 0, currentToken := none, tokenExpiresAt := none,
          isRefreshingToken := false }
        { timeLeft := 30 }).2 = 20000 := by
  have h := (goaway_schedules_margin_reconnect
    { currentSession := none, sessionHandle := none, reconnectAttempts := 0,
      maxReconnectAttempts := 3, reconnectDelay := 1000,
      healthCheckInterval := true, tokenRefreshInterval := false,
      pendingBackoffTimers := 0, pendingGoAwayTimers := 0,
      lastActivityTime := 0, currentToken := none, tokenExpiresAt := none,
      isRefreshingToken := false }
    { timeLeft := 30 } (by decide)).1
  simpa using h

/-- **C9.** For every failed reconnection attempt `n` (i.e. entry with
counter `n − 1`, below the maximum), the next attempt is scheduled after a
delay equal to the base delay multiplied by the attempt number:
`reconnectDelay * n` milliseconds (linear backoff), with the counter
advanced to `n`. -/
theorem reconnect_backoff_linear
    (st : GeminiServiceState) (n : Nat)
    (hn : st.reconnectAttempts + 1 = n)
    (hlt : st.reconnectAttempts < st.maxReconnectAttempts) :
    (reconnectSessionStep st false).2 =
      .retryScheduled (st.reconnectDelay * n) ∧
    (reconnectSessionStep st false).1.reconnectAttempts = n := by
  have hnle : ¬ st.maxReconnectAttempts ≤ st.reconnectAttempts :=
    Nat.not_le.mpr hlt
  subst hn
  simp [reconnectSessionStep, hnle]

/-- Witness for **C9**: second attempt failing (counter 1 → 2) with base
delay 1000 ms schedules the retry 2000 ms out. -/
theorem reconnect_backoff_linear_witness :
    (reconnectSessionStep
        { currentSession := none, sessionHandle := none, reconnectAttempts := 1,
          maxReconnectAttempts := 3, reconnectDelay := 1000,
          healthCheckInterval := true, tokenRefreshInterval := false,
          pendingBackoffTimers := 0, pendingGoAwayTimers := 0,
          lastActivityTime := 0, currentToken := none, tokenExpiresAt := none,
          isRefreshingToken := false }
        false).2 = .retryScheduled 2000 := by
  have h := (reconnect_backoff_linear
    { currentSession := none, sessionHandle := none, reconnectAttempts := 1,
      maxReconnectAttempts := 3, reconnectDelay := 1000,
      healthCheckInterval := true, tokenRefreshInterval := false,
      pendingBackoffTimers := 0, pendingGoAwayTimers := 0,
      lastActivityTime := 0, currentToken := none, tokenExpiresAt := none,
      isRefreshingToken := false }
    2 rfl (by decide)).1
  simpa using h

/-- **C10.** If `sendMultimodalInput` with an audio chunk passes the busy
gate (so the pre-call `isProcessing` is `false`), sets the flag, and the
remote send then fails, the method resets `isProcessing` to `false` before
rethrowing: the error is propagated and the flag equals its pre-call value
after the failure. -/
theorem busy_flag_restored_on_send_failure
    (st : GeminiServiceState) (sess : GeminiSession) (a : AudioChunk)
    (ov : Option VideoFrame) (now : Nat)
    (hs : st.currentSession = some sess)
    (hc : sess.isConnected = true)
    (hp : sess.isProcessing = false) :
    (sendMultimodalInput st (some a) ov now false).result = .sendFailed ∧
    (sendMultimodalInput st (some a) ov now false).state.currentSession.map
        GeminiSession.isProcessing = some false ∧
    (sendMultimodalInput st (some a) ov now false).state.currentSession.map
        GeminiSession.isProcessing = some sess.isProcessing := by
  simp [sendMultimodalInput, hs, hc, hp]

/-- Witness for **C10** at a concrete connected, non-busy session. -/
theorem busy_flag_restored_on_send_failure_witness :
    (sendMultimodalInput
        { currentSession := some { sessionHandle := none, isConnected := true,
                                   isProcessing := false },
          sessionHandle := none, reconnectAttempts := 0,
          maxReconnectAttempts := 3, reconnectDelay := 1000,
          healthCheckInterval := true, tokenRefreshInterval := false,
          pendingBackoffTimers := 0, pendingGoAwayTimers := 0,
          lastActivityTime := 0, currentToken := none, tokenExpiresAt := none,
          isRefreshingToken := false }
        (some { data := "a", mimeType := "audio/webm;codecs=opus",
                timestamp := 3 })
        none 9 false).result = .sendFailed :=
  (busy_flag_restored_on_send_failure _
    { sessionHandle := none, isConnected := true, isProcessing := false }
    { data := "a", mimeType := "audio/webm;codecs=opus", timestamp := 3 }
    none 9 rfl rfl rfl).1

/-- **C5.** While a prior send's response is pending (`isProcessing`), a new
audio-bearing input is dropped by `sendMultimodalInput` — returned without
error, without contacting the remote endpoint, state unchanged; a video-only
input is not gated by the busy flag (the remote endpoint is contacted); and
the busy flag clears when a `generationComplete` message arrives. -/
theorem busy_gate_drop_policy
    (st : GeminiServiceState) (sess : GeminiSession)
    (a : AudioChunk) (ov : Option VideoFrame) (v : VideoFrame)
    (now : Nat) (ok : Bool)
    (hs : st.currentSession = some sess) (hc : sess.isConnected = true)
    (hb : sess.isProcessing = true) :
    sendMultimodalInput st (some a) ov now ok =
      { state := st, result := .droppedBusy, remoteContacted := false,
        payload := none } ∧
    (sendMultimodalInput st none (some v) now ok).remoteContacted = true ∧
    (∀ msg : LiveMessage, ∀ sc : ServerContent,
      msg.serverContent = some sc → sc.generationComplete = true →
      (handleMessage st msg).currentSession.map GeminiSession.isProcessing =
        some false) := by
  refine ⟨?_, ?_, ?_⟩
  · simp [sendMultimodalInput, hs, hc, hb]
  · cases ok <;> simp [sendMultimodalInput, hs, hc, hb]
  · intro msg sc hsc hgen
    rcases msg with ⟨sru, ga, srv⟩
    simp only at hsc
    subst hsc
    cases sru with
    | none =>
        cases ga <;> simp [handleMessage, handleGoAway, hgen, hs]
    | some u =>
        cases hnh : u.newHandle with
        | none =>
            cases ga <;> simp [handleMessage, handleGoAway, hgen, hs, hnh]
        | some hdl =>
            by_cases hres : u.resumable = true ∧ hdl ≠ "" <;>
              cases ga <;>
                simp [handleMessage, handleGoAway, hgen, hs, hnh, hres]

/-- Witness for **C5**: a busy session drops an audio-bearing input. -/
theorem busy_gate_drop_policy_witness :
    sendMultimodalInput
        { currentSession := some { sessionHandle := none, isConnected := true,
                                   isProcessing := true },
          sessionHandle := none, reconnectAttempts := 0,
          maxReconnectAttempts := 3, reconnectDelay := 1000,
          healthCheckInterval := true, tokenRefreshInterval := false,
          pendingBackoffTimers := 0, pendingGoAwayTimers := 0,
          lastActivityTime := 0, currentToken := none, tokenExpiresAt := none,
          isRefreshingToken := false }
        (some { data := "a", mimeType := "audio/webm;codecs=opus",
                timestamp := 3 })
        none 9 true =
      { state :=
          { currentSession := some { sessionHandle := none, isConnected := true,
                                     isProcessing := true },
            sessionHandle := none, reconnectAttempts := 0,
            maxReconnectAttempts := 3, reconnectDelay := 1000,
            healthCheckInterval := true, tokenRefreshInterval := false,
            pendingBackoffTimers := 0, pendingGoAwayTimers := 0,
            lastActivityTime := 0, currentToken := none, tokenExpiresAt := none,
            isRefreshingToken := false },
        result := .droppedBusy, remoteContacted := false, payload := none } :=
  (busy_gate_drop_policy _
    { sessionHandle := none, isConnected := true, isProcessing := true }
    { data := "a", mimeType := "audio/webm;codecs=opus", timestamp := 3 }
    none { data := "v", timestamp := 0, width := 640, height := 480 }
    9 true rfl rfl rfl).1

/-- **C7.** When an inbound message carries a resumption update marked
resumable with a (truthy) new handle, that handle replaces the stored
`sessionHandle`, and the `SessionConfig` built by every subsequent
`connectSession` passes the stored handle as the `sessionResumption`
parameter. -/
theorem resumption_handle_stored_and_used
    (st : GeminiServiceState) (msg : LiveMessage)
    (u : SessionResumptionUpdate) (hdl : String)
    (hu : msg.sessionResumptionUpdate = some u) (hr : u.resumable = true)
    (hh : u.newHandle = some hdl) (hne : hdl ≠ "") :
    (handleMessage st msg).sessionHandle = some hdl ∧
    (connectConfig (handleMessage st msg)).sessionResumption.handle =
      some hdl := by
  have key : (handleMessage st msg).sessionHandle = some hdl := by
    rcases msg with ⟨sru, ga, srv⟩
    simp only at hu
    subst hu
    cases ga <;> cases srv <;>
      simp [handleMessage, handleGoAway, hh, hr, hne] <;> split <;> simp
  exact ⟨key, by simp [connectConfig, key]⟩

/-- Witness for **C7**: handle `"h1"` in, `"h1"` on the next connect
(Scenario D). -/
theorem resumption_handle_stored_and_used_witness :
    (connectConfig (handleMessage
        { currentSession := none, sessionHandle := none, reconnectAttempts := 0,
          maxReconnectAttempts := 3, reconnectDelay := 1000,
          healthCheckInterval := true, tokenRefreshInterval := false,
          pendingBackoffTimers := 0, pendingGoAwayTimers := 0,
          lastActivityTime := 0, currentToken := none, tokenExpiresAt := none,
          isRefreshingToken := false }
        { sessionResumptionUpdate :=
            some { resumable := true, newHandle := some "h1" },
          goAway := none, serverContent := none })).sessionResumption.handle =
      some "h1" :=
  (resumption_handle_stored_and_used _ _
    { resumable := true, newHandle := some "h1" } "h1"
    rfl rfl rfl (by decide)).2

/-- **C2 counterexample.** A go-away countdown scheduled by `handleGoAway`
(and likewise a backoff retry scheduled by a failed `reconnectSession`
attempt) survives `cleanupSession`: the `setTimeout` handles are never stored
in any field, so stopping the manager does *not* cancel them and their
callbacks still fire after cleanup — refuting the claim that stopping
cancels every pending timer. -/
theorem cleanup_leaves_untracked_timers_pending :
    (cleanupSession (handleGoAway
        { currentSession := some { sessionHandle := none, isConnected := true,
                                   isProcessing := false },
          sessionHandle := none, reconnectAttempts := 0,
          maxReconnectAttempts := 3, reconnectDelay := 1000,
          healthCheckInterval := true, tokenRefreshInterval := true,
          pendingBackoffTimers := 0, pendingGoAwayTimers := 0,
          lastActivityTime := 0, currentToken := some "tok",
          tokenExpiresAt := some 600000,
          isRefreshingToken := false }
        { timeLeft := 30 }).1).pendingGoAwayTimers = 1 ∧
    (cleanupSession (reconnectSessionStep
        { currentSession := none, sessionHandle := none, reconnectAttempts := 0,
          maxReconnectAttempts := 3, reconnectDelay := 1000,
          healthCheckInterval := true, tokenRefreshInterval := false,
          pendingBackoffTimers := 0, pendingGoAwayTimers := 0,
          lastActivityTime := 0, currentToken := none, tokenExpiresAt := none,
          isRefreshingToken := false }
        false).1).pendingBackoffTimers = 1 := by
  constructor <;> rfl

/-- **C2 (amended).** `cleanupSession` cancels the two timers the class
tracks in fields — the health-check interval and the token-refresh timer —
nulls the session, resets the attempt counter, token state and refresh flag,
and is idempotent (repeated stop calls are safe); the untracked backoff and
go-away `setTimeout` callbacks are left pending, unchanged. -/
theorem cleanup_cancels_tracked_timers_idempotent (st : GeminiServiceState) :
    (cleanupSession st).healthCheckInterval = false ∧
    (cleanupSession st).tokenRefreshInterval = false ∧
    (cleanupSession st).currentSession = none ∧
    (cleanupSession st).reconnectAttempts = 0 ∧
    (cleanupSession st).currentToken = none ∧
    (cleanupSession st).tokenExpiresAt = none ∧
    (cleanupSession st).isRefreshingToken = false ∧
    cleanupSession (cleanupSession st) = cleanupSession st ∧
    (cleanupSession st).pendingBackoffTimers = st.pendingBackoffTimers ∧
    (cleanupSession st).pendingGoAwayTimers = st.pendingGoAwayTimers := by
  simp [cleanupSession]

/-- Dispatching a media event never touches the capture flags — only the
`currentVideoFrame` slot changes. -/
theorem mediaStep_preserves_flags (st : MediaServiceState) (e : MediaEvent) :
    (mediaStep st e).1.isCapturing = st.isCapturing ∧
    (mediaStep st e).1.hasCallback = st.hasCallback ∧
    (mediaStep st e).1.elementsReady = st.elementsReady := by
  cases e with
  | videoTick f =>
      simp only [mediaStep, captureVideoFrame]
      split <;> simp
  | audioData sz b now => simp [mediaStep]

/-- **C1 counterexample.** With capture running, the callback installed, and
no video frame ever captured, a non-empty audio chunk arrival emits
*nothing*: the `ondataavailable` guard `event.data.size > 0 &&
this.currentVideoFrame && this.onMediaInput` drops the chunk, so no
audio-only input is emitted (the `MediaInput` type has no optional video
field), refuting the claim's no-frame edge case. -/
theorem audio_chunk_without_frame_dropped :
    (mediaRun
        { isCapturing := true, hasCallback := true, elementsReady := true,
          currentVideoFrame := none }
        [MediaEvent.audioData 1 "qq" 5]).2 = [] := rfl

/-- **C1 (amended).** For every audio-chunk arrival (non-empty data) during
capture, the pairing pipeline emits exactly one `MediaInput` pairing that
chunk with the most recently captured video frame at emission time — but if
no video frame has ever been captured, the chunk is dropped and nothing is
emitted (no audio-only input exists in this pipeline). -/
theorem audio_chunk_pairs_latest_frame
    (evs : List MediaEvent) (st : MediaServiceState)
    (sz : Nat) (b : String) (now : Nat)
    (hcap : st.isCapturing = true) (hcb : st.hasCallback = true)
    (hel : st.elementsReady = true) (hsz : 0 < sz) :
    (mediaRun st (evs ++ [MediaEvent.audioData sz b now])).2 =
      (mediaRun st evs).2 ++
        (match lastCapturedFrame st.currentVideoFrame evs with
         | some vf =>
             [{ audio := { data := b, mimeType := "audio/webm;codecs=opus",
                           timestamp := now },
                video := vf, timestamp := now }]
         | none => []) := by
  induction evs generalizing st with
  | nil =>
      cases hcv : st.currentVideoFrame <;>
        simp [mediaRun, mediaStep, ondataavailable, lastCapturedFrame,
          hsz, hcb, hcv]
  | cons e rest ih =>
      cases e with
      | videoTick f =>
          have hst' : captureVideoFrame st f =
              { st with currentVideoFrame := some f } := by
            simp [captureVideoFrame, hel, hcap]
          simp only [List.cons_append, mediaRun, mediaStep, hst',
            lastCapturedFrame, List.append_eq]
          rw [ih { st with currentVideoFrame := some f } hcap hcb hel]
          simp [List.append_assoc]
      | audioData sz' b' now' =>
          simp only [List.cons_append, mediaRun, mediaStep, lastCapturedFrame,
            List.append_eq]
          rw [ih st hcap hcb hel]
          cases lastCapturedFrame st.currentVideoFrame rest <;>
            simp [List.append_assoc]

/-- Witness for **C1 (amended)**: after two captured frames, an audio chunk
pairs with the second (most recent) frame. -/
theorem audio_chunk_pairs_latest_frame_witness :
    (mediaRun
        { isCapturing := true, hasCallback := true, elementsReady := true,
          currentVideoFrame := none }
        [MediaEvent.videoTick { data := "f1", timestamp := 1, width := 640,
                                height := 480 },
         MediaEvent.videoTick { data := "f2", timestamp := 2, width := 640,
                                height := 480 },
         MediaEvent.audioData 4 "qq" 9]).2 =
      [{ audio := { data := "qq", mimeType := "audio/webm;codecs=opus",
                    timestamp := 9 },
         video := { data := "f2", timestamp := 2, width := 640, height := 480 },
         timestamp := 9 }] := by
  have h := audio_chunk_pairs_latest_frame
    [MediaEvent.videoTick { data := "f1", timestamp := 1, width := 640,
                            height := 480 },
     MediaEvent.videoTick { data := "f2", timestamp := 2, width := 640,
                            height := 480 }]
    { isCapturing := true, hasCallback := true, elementsReady := true,
      currentVideoFrame := none }
    4 "qq" 9 rfl rfl rfl (by decide)
  simpa [mediaRun, mediaStep, captureVideoFrame, lastCapturedFrame] using h

/-- Entering `reconnectSession` with the attempt counter already at (or past)
the maximum issues no connect attempt: it logs the single fatal notification
and cleans up. -/
theorem reconnectRun_exhausted (st : GeminiServiceState) (outcomes : List Bool)
    (h : st.maxReconnectAttempts ≤ st.reconnectAttempts) :
    reconnectRun st outcomes =
      (cleanupSession st,
       { connects := 0, fatals := 1, closed := true,
         maxCounterSeen := st.reconnectAttempts }) := by
  cases outcomes with
  | nil => simp [reconnectRun, h]
  | cons ok rest => simp [reconnectRun, h]

/-- Throughout any reconnection episode started with the counter within
bounds, the counter never exceeds the maximum and at most one fatal
notification is emitted. -/
theorem reconnectRun_counter_bounded (outcomes : List Bool)
    (st : GeminiServiceState)
    (hle : st.reconnectAttempts ≤ st.maxReconnectAttempts) :
    (reconnectRun st outcomes).2.maxCounterSeen ≤ st.maxReconnectAttempts ∧
    (reconnectRun st outcomes).2.fatals ≤ 1 := by
  induction outcomes generalizing st with
  | nil =>
      by_cases h : st.maxReconnectAttempts ≤ st.reconnectAttempts <;>
        simp [reconnectRun, h, hle]
  | cons ok rest ih =>
      by_cases h : st.maxReconnectAttempts ≤ st.reconnectAttempts
      · simp [reconnectRun, h, hle]
      · cases ok with
        | true => simp [reconnectRun, h, hle]
        | false =>
            have hlt : st.reconnectAttempts < st.maxReconnectAttempts :=
              Nat.lt_of_not_le h
            have ih' := ih
              { st with reconnectAttempts := st.reconnectAttempts + 1,
                        pendingBackoffTimers := st.pendingBackoffTimers + 1 }
              (by simpa using hlt)
            simp only [reconnectRun, h, if_false, reconnectSessionStep]
            simp only [reconnectSessionStep] at ih'
            constructor
            · simp only [if_neg h, Bool.false_eq_true, if_false]
              exact max_le hle ih'.1
            · simpa [if_neg h] using ih'.2

/-- When every connect attempt fails and exactly enough outcomes remain to
exhaust the counter, the run issues one connect per remaining attempt, then
emits the single fatal notification and ends cleaned up (closed). -/
theorem reconnectRun_all_fail (k : Nat) (st : GeminiServiceState)
    (hk : st.reconnectAttempts + k = st.maxReconnectAttempts) :
    (reconnectRun st (List.replicate k false)).2.connects = k ∧
    (reconnectRun st (List.replicate k false)).2.fatals = 1 ∧
    (reconnectRun st (List.replicate k false)).2.closed = true ∧
    (reconnectRun st (List.replicate k false)).1.currentSession = none := by
  induction k generalizing st with
  | zero =>
      have h : st.maxReconnectAttempts ≤ st.reconnectAttempts := by omega
      simp [reconnectRun_exhausted st [] h, cleanupSession]
  | succ k ih =>
      have h : ¬ st.maxReconnectAttempts ≤ st.reconnectAttempts := by omega
      have ih' := ih
        { st with reconnectAttempts := st.reconnectAttempts + 1,
                  pendingBackoffTimers := st.pendingBackoffTimers + 1 }
        (by simp; omega)
      simp only [List.replicate_succ, reconnectRun, h, if_false,
        reconnectSessionStep]
      simp only [if_neg h, Bool.false_eq_true, if_false]
      refine ⟨by simpa using ih'.1, by simpa using ih'.2.1,
        by simpa using ih'.2.2.1, by simpa using ih'.2.2.2⟩

/-- **C4.** The reconnection-attempt counter never exceeds
`maxReconnectAttempts`, and at most one fatal notification is ever emitted;
entering `reconnectSession` with the counter exhausted performs no further
connect attempts, emits exactly one fatal notification and reaches the
cleaned-up (closed) state; and an episode of `maxReconnectAttempts`
consecutive failures from a fresh counter issues exactly
`maxReconnectAttempts` connect attempts, then one fatal notification, ending
closed. -/
theorem reconnect_exhaustion_policy (st : GeminiServiceState)
    (outcomes : List Bool)
    (hle : st.reconnectAttempts ≤ st.maxReconnectAttempts) :
    (reconnectRun st outcomes).2.maxCounterSeen ≤ st.maxReconnectAttempts ∧
    (reconnectRun st outcomes).2.fatals ≤ 1 ∧
    (st.maxReconnectAttempts ≤ st.reconnectAttempts →
      (reconnectRun st outcomes).2.connects = 0 ∧
      (reconnectRun st outcomes).2.fatals = 1 ∧
      (reconnectRun st outcomes).2.closed = true) ∧
    (st.reconnectAttempts = 0 →
     outcomes = List.replicate st.maxReconnectAttempts false →
      (reconnectRun st outcomes).2.connects = st.maxReconnectAttempts ∧
      (reconnectRun st outcomes).2.fatals = 1 ∧
      (reconnectRun st outcomes).2.closed = true ∧
      (reconnectRun st outcomes).1.currentSession = none) := by
  refine ⟨(reconnectRun_counter_bounded outcomes st hle).1,
    (reconnectRun_counter_bounded outcomes st hle).2, ?_, ?_⟩
  · intro h
    simp [reconnectRun_exhausted st outcomes h]
  · intro h0 hrep
    subst hrep
    exact reconnectRun_all_fail st.maxReconnectAttempts st (by omega)

/-- Witness for **C4**: Scenario B — three consecutive failures with the
default maximum of 3 issue exactly 3 connect attempts, one fatal
notification, and end closed. -/
theorem reconnect_exhaustion_policy_witness :
    (reconnectRun
        { currentSession := none, sessionHandle := none, reconnectAttempts := 0,
          maxReconnectAttempts := 3, reconnectDelay := 1000,
          healthCheckInterval := true, tokenRefreshInterval := false,
          pendingBackoffTimers := 0, pendingGoAwayTimers := 0,
          lastActivityTime := 0, currentToken := none, tokenExpiresAt := none,
          isRefreshingToken := false }
        (List.replicate 3 false)).2.connects = 3 :=
  ((reconnect_exhaustion_policy
      { currentSession := none, sessionHandle := none, reconnectAttempts := 0,
        maxReconnectAttempts := 3, reconnectDelay := 1000,
        healthCheckInterval := true, tokenRefreshInterval := false,
        pendingBackoffTimers := 0, pendingGoAwayTimers := 0,
        lastActivityTime := 0, currentToken := none, tokenExpiresAt := none,
        isRefreshingToken := false }
      (List.replicate 3 false) (by decide)).2.2.2 rfl rfl).1

/-- **C3 counterexample.** Two callers entering `ensureValidToken` in the
same instant, with no valid token and no refresh in progress, each start an
issuance request: after the first caller suspends on its `fetch` (one request
outstanding), the second caller still sees `isRefreshingToken == false`
(`ensureValidToken` never sets the flag) and starts a second request — two
requests in flight at once, refuting the at-most-one-in-flight claim. -/
theorem ensure_valid_token_duplicate_issuance :
    (runTokenSched
        { isRefreshingToken := false, tokenValid := false,
          requestsStarted := 0, requestsInFlight := 0 }
        [TokenProc.evStart, TokenProc.evStart] [0]).1.requestsInFlight = 1 ∧
    (runTokenSched
        { isRefreshingToken := false, tokenValid := false,
          requestsStarted := 0, requestsInFlight := 0 }
        [TokenProc.evStart, TokenProc.evStart] [0, 1]).1.requestsStarted = 2 ∧
    ¬ (runTokenSched
        { isRefreshingToken := false, tokenValid := false,
          requestsStarted := 0, requestsInFlight := 0 }
        [TokenProc.evStart, TokenProc.evStart] [0, 1]).1.requestsInFlight ≤ 1 := by
  decide

/-- Replacing the element at index `i` adjusts `countP` by the contributions
of the removed and the inserted element. -/
theorem countP_set_balance {α : Type} (f : α → Bool) :
    ∀ (ps : List α) (i : Nat) (p q : α), ps[i]? = some p →
      (ps.set i q).countP f + (if f p then 1 else 0) =
        ps.countP f + (if f q then 1 else 0)
  | [], i, p, q, h => by simp at h
  | x :: rest, 0, p, q, h => by
      simp only [List.getElem?_cons_zero, Option.some.injEq] at h
      subst h
      simp [List.countP_cons]
      omega
  | x :: rest, i + 1, p, q, h => by
      simp only [List.getElem?_cons_succ] at h
      have hrec := countP_set_balance f rest i p q h
      simp only [List.set_cons_succ, List.countP_cons]
      omega

/-- One scheduler dispatch preserves the refresh mutual-exclusion
invariant. -/
theorem tokenStepAt_preserves_RefreshInv (s : TokenEnvState)
    (ps : List TokenProc) (i : Nat) (h : RefreshInv s ps) :
    RefreshInv (tokenStepAt s ps i).1 (tokenStepAt s ps i).2 := by
  obtain ⟨hall, hflight, hflag, hle⟩ := h
  cases hi : ps[i]? with
  | none => exact by simpa [tokenStepAt, hi] using ⟨hall, hflight, hflag, hle⟩
  | some p =>
      have hmem : p ∈ ps := List.getElem?_mem hi
      have hp : isRefreshProc p = true := hall p hmem
      have hmemset : ∀ q p', p' ∈ ps.set i q →
          isRefreshProc q = true → isRefreshProc p' = true := by
        intro q p' hp' hq
        rcases List.mem_or_eq_of_mem_set hp' with hin | rfl
        · exact hall p' hin
        · exact hq
      cases p with
      | evStart => simp [isRefreshProc] at hp
      | evWait => simp [isRefreshProc] at hp
      | evAwait => simp [isRefreshProc] at hp
      | evDone => simp [isRefreshProc] at hp
      | rtDone =>
          have hbal : awaitingCount (ps.set i TokenProc.rtDone) =
              awaitingCount ps := by
            have hb := countP_set_balance
              (fun p => p == TokenProc.rtAwait || p == TokenProc.evAwait)
              ps i TokenProc.rtDone TokenProc.rtDone hi
            simpa [awaitingCount] using hb
          have hstep : tokenStepAt s ps i = (s, ps.set i TokenProc.rtDone) := by
            simp [tokenStepAt, hi, tokenStep]
          rw [hstep]
          exact ⟨fun p' hp' => hmemset _ p' hp' rfl,
                 by rw [hbal]; exact hflight,
                 by rw [hbal]; exact hflag,
                 by rw [hbal]; exact hle⟩
      | rtStart =>
          by_cases hf : s.isRefreshingToken = true
          · have hbal : awaitingCount (ps.set i TokenProc.rtDone) =
                awaitingCount ps := by
              have hb := countP_set_balance
                (fun p => p == TokenProc.rtAwait || p == TokenProc.evAwait)
                ps i TokenProc.rtStart TokenProc.rtDone hi
              simpa [awaitingCount] using hb
            have hstep : tokenStepAt s ps i = (s, ps.set i TokenProc.rtDone) := by
              simp [tokenStepAt, hi, tokenStep, hf]
            rw [hstep]
            exact ⟨fun p' hp' => hmemset _ p' hp' rfl,
                   by rw [hbal]; exact hflight,
                   by rw [hbal]; exact hflag,
                   by rw [hbal]; exact hle⟩
          · have hcnt0 : awaitingCount ps = 0 := by
              have hne : awaitingCount ps ≠ 1 := fun hc => hf (hflag.mpr hc)
              omega
            have hbal : awaitingCount (ps.set i TokenProc.rtAwait) =
                awaitingCount ps + 1 := by
              have hb := countP_set_balance
                (fun p => p == TokenProc.rtAwait || p == TokenProc.evAwait)
                ps i TokenProc.rtStart TokenProc.rtAwait hi
              simpa [awaitingCount] using hb
            have hstep : tokenStepAt s ps i =
                ({ s with isRefreshingToken := true,
                          requestsStarted := s.requestsStarted + 1,
                          requestsInFlight := s.requestsInFlight + 1 },
                 ps.set i TokenProc.rtAwait) := by
              simp [tokenStepAt, hi, tokenStep, hf]
            rw [hstep]
            refine ⟨fun p' hp' => hmemset _ p' hp' rfl, ?_, ?_, ?_⟩
            · show s.requestsInFlight + 1 =
                awaitingCount (ps.set i TokenProc.rtAwait)
              omega
            · show (true = true) ↔
                awaitingCount (ps.set i TokenProc.rtAwait) = 1
              simp [hbal, hcnt0]
            · show awaitingCount (ps.set i TokenProc.rtAwait) ≤ 1
              omega
      | rtAwait =>
          have hpos : 0 < awaitingCount ps :=
            List.countP_pos_iff.mpr ⟨TokenProc.rtAwait, hmem, by decide⟩
          have hone : awaitingCount ps = 1 := by omega
          have hfl : s.isRefreshingToken = true := hflag.mpr hone
          have hbal : awaitingCount (ps.set i TokenProc.rtDone) + 1 =
              awaitingCount ps := by
            have hb := countP_set_balance
              (fun p => p == TokenProc.rtAwait || p == TokenProc.evAwait)
              ps i TokenProc.rtAwait TokenProc.rtDone hi
            simpa [awaitingCount] using hb
          have hstep : tokenStepAt s ps i =
              ({ s with isRefreshingToken := false, tokenValid := true,
                        requestsInFlight := s.requestsInFlight - 1 },
               ps.set i TokenProc.rtDone) := by
            simp [tokenStepAt, hi, tokenStep]
          rw [hstep]
          refine ⟨fun p' hp' => hmemset _ p' hp' rfl, ?_, ?_, ?_⟩
          · show s.requestsInFlight - 1 =
              awaitingCount (ps.set i TokenProc.rtDone)
            omega
          · show (false = true) ↔ awaitingCount (ps.set i TokenProc.rtDone) = 1
            have hz : awaitingCount (ps.set i TokenProc.rtDone) = 0 := by omega
            simp [hz]
          · show awaitingCount (ps.set i TokenProc.rtDone) ≤ 1
            omega

/-- Running any schedule preserves the refresh mutual-exclusion invariant. -/
theorem runTokenSched_preserves_RefreshInv :
    ∀ (sched : List Nat) (s : TokenEnvState) (ps : List TokenProc),
      RefreshInv s ps →
      RefreshInv (runTokenSched s ps sched).1 (runTokenSched s ps sched).2
  | [], _, _, h => h
  | i :: rest, s, ps, h =>
      runTokenSched_preserves_RefreshInv rest _ _
        (tokenStepAt_preserves_RefreshInv s ps i h)

/-- **C3 (amended).** Mutual exclusion via the `isRefreshingToken` flag holds
for `refreshToken`: an `ensureValidToken` caller that observes a refresh in
progress goes to the 1-second wait without starting a request, and for any
number of concurrent `refreshToken` callers under any interleaving at most
one issuance request is in flight at any instant.  (As the counterexample
shows, this does *not* extend to concurrent `ensureValidToken` callers when
no refresh is in progress, since `ensureValidToken` never sets the flag.) -/
theorem refresh_token_mutual_exclusion :
    (∀ s : TokenEnvState, s.isRefreshingToken = true →
      tokenStep s TokenProc.evStart = (s, TokenProc.evWait)) ∧
    (∀ (ps : List TokenProc) (s : TokenEnvState) (sched : List Nat),
      (∀ p ∈ ps, p = TokenProc.rtStart) →
      s.isRefreshingToken = false → s.requestsInFlight = 0 →
      (runTokenSched s ps sched).1.requestsInFlight ≤ 1) := by
  constructor
  · intro s hs
    simp [tokenStep, hs]
  · intro ps s sched hall hflag hflight
    have hcnt : awaitingCount ps = 0 := by
      refine List.countP_eq_zero.mpr ?_
      intro p hp
      rw [hall p hp]
      decide
    have hinv : RefreshInv s ps := by
      refine ⟨fun p hp => by rw [hall p hp]; rfl, by omega, ?_, by omega⟩
      constructor
      · intro hs; exact absurd hs (by simp [hflag])
      · intro hc; omega
    have hfin := runTokenSched_preserves_RefreshInv sched s ps hinv
    calc (runTokenSched s ps sched).1.requestsInFlight
        = awaitingCount (runTokenSched s ps sched).2 := hfin.2.1
      _ ≤ 1 := hfin.2.2.2

/-- Witness for **C3 (amended)**: a waiting `ensureValidToken` caller and two
interleaved `refreshToken` callers at a concrete schedule. -/
theorem refresh_token_mutual_exclusion_witness :
    tokenStep
        { isRefreshingToken := true, tokenValid := false,
          requestsStarted := 0, requestsInFlight := 0 }
        TokenProc.evStart =
      ({ isRefreshingToken := true, tokenValid := false,
         requestsStarted := 0, requestsInFlight := 0 }, TokenProc.evWait) ∧
    (runTokenSched
        { isRefreshingToken := false, tokenValid := false,
          requestsStarted := 0, requestsInFlight := 0 }
        [TokenProc.rtStart, TokenProc.rtStart]
        [0, 1, 0, 1]).1.requestsInFlight ≤ 1 :=
  ⟨refresh_token_mutual_exclusion.1 _ rfl,
   refresh_token_mutual_exclusion.2 _ _ _ (by decide) rfl rfl⟩

end Aicular
